import Mathlib

/-!
# Verification of the reconnecting Theater client

Shallow embedding of `src/changes/theater_client_with_reconnection.rs`.

The client keeps one shared connection slot (`Arc<Mutex<Option<TcpStream>>>`)
and an atomic `is_connecting` flag.  `ensure_connected` (lines 43-80) probes
and lazily re-dials the connection; `send_command` (lines 84-210) runs a
bounded retry loop (3 attempts, exponential backoff starting at 500 ms)
around one framed write/read round trip.

Network outcomes (the liveness probe, the dial, each write and read, and the
JSON parse of the response) are supplied by an environment record per
attempt, so the embedding is a deterministic function of the initial state
and that environment.  Each step also emits a trace of externally visible
events (dial, sleep, the individual writes and reads) so that claims about
backoff timing and about which operations run can be stated.

All uses of the `is_connecting` flag in the source happen while the caller
holds the connection-slot mutex, so treating `ensure_connected` as one
atomic step (and the locked region of lines 109-194 as another) is faithful.
For claims about concurrent callers a two-task scheduler interleaves those
atomic steps.
-/

/-- A live `TcpStream` handle, abstracted by an identifier. -/
abbrev Conn := Nat

/-- The shared mutable state of `TheaterClient` (lines 20-24): the
connection slot and the `is_connecting` atomic flag. -/
structure SharedState where
  slot : Option Conn
  isConnecting : Bool
deriving DecidableEq, Repr

/-- A decoded server response (external type `ManagementResponse`).
`send_command` only inspects the `Error { message }` variant (line 200);
every other variant is passed through opaquely, so they are collapsed into
one `success` constructor carrying an opaque payload. -/
inductive ManagementResponse where
  | Error (message : String)
  | success (payload : List Nat)
deriving DecidableEq, Repr

/-- Outcomes of the network operations of one attempt, supplied by the
environment.  `none` in an `...Err` field means the operation succeeded;
`some e` means it failed with error text `e`. -/
structure AttemptEnv where
  /-- Line 49: result of the 0-length liveness write (used only when the
  slot holds a connection). -/
  probeErr : Option String
  /-- Line 61: result of `TcpStream::connect` (used only when a dial is
  attempted). -/
  dial : Except String Conn
  /-- Line 113: result of writing the 4-byte length header. -/
  writeLenErr : Option String
  /-- Line 129: result of writing the payload bytes. -/
  writeBodyErr : Option String
  /-- Line 146: result of reading the 4-byte response length. -/
  readLenErr : Option String
  /-- Line 165: result of reading the response body. -/
  readBodyErr : Option String
  /-- Line 181: result of `serde_json::from_slice` on the response body. -/
  parse : Except String ManagementResponse
deriving Repr

/-- Result of `ensure_connected` (lines 43-80). -/
inductive EnsureResult where
  | ok
  /-- Line 69: the dial failed with the given underlying cause. -/
  | connectFailed (cause : String)
  /-- Line 75: another caller holds the reconnecting flag. -/
  | inProgress
deriving DecidableEq, Repr

/-- The error text carried by the `anyhow!` value `ensure_connected`
returns (lines 69 and 75). -/
def EnsureResult.message : EnsureResult → String
  | .ok => ""
  | .connectFailed c => "Failed to connect to Theater server: " ++ c
  | .inProgress => "Connection attempt already in progress"

/-- Externally visible events of one `send_command` call. -/
inductive Ev where
  /-- Line 49: the 0-length liveness write. -/
  | probe
  /-- Line 61: a dial of the remote address. -/
  | dial
  /-- Lines 96, 123, 139, 156, 175, 191: a backoff sleep of `ms`
  milliseconds. -/
  | sleep (ms : Nat)
  /-- Line 113: write of the 4-byte length header. -/
  | writeLen
  /-- Line 129: write of the payload bytes. -/
  | writeBody
  /-- Line 146: read of the 4-byte response length. -/
  | readLen
  /-- Line 165: read of the response body. -/
  | readBody
deriving DecidableEq, Repr

/-- Lines 47-54: the contents of the connection slot after the liveness
probe: an existing connection is kept if the 0-length write succeeds and
cleared (`*connection_guard = None`, line 52) if it fails. -/
def probedSlot (st : SharedState) (env : AttemptEnv) : Option Conn :=
  match st.slot with
  | some c => if env.probeErr.isSome then none else some c
  | none => none

/-- Events emitted by the probe phase (the 0-length write happens exactly
when the slot holds a connection). -/
def probeEvs (st : SharedState) : List Ev :=
  match st.slot with
  | some _ => [Ev.probe]
  | none => []

/-- `ensure_connected` (lines 43-80) as one atomic step: the whole body
runs while holding the connection-slot mutex, and the `is_connecting` flag
is only ever touched from inside this region.  Returns the result, the
shared state at return, and the emitted events.

- Lines 47-54: probe an existing connection; clear the slot on failure.
- Line 57: if the slot is empty, line 59 swaps the flag to `true`.
  - Flag already `true`: fail with `inProgress` (line 75); the flag is left
    for its holder.
  - Flag claimed: dial (line 61).  Success stores the stream (line 63) and
    clears the flag (line 72); failure clears the flag (line 68) and
    returns the error (line 69), leaving the slot empty. -/
def ensureStep (st : SharedState) (env : AttemptEnv) :
    EnsureResult × SharedState × List Ev :=
  match probedSlot st env with
  | some c => (.ok, ⟨some c, st.isConnecting⟩, probeEvs st)
  | none =>
    if st.isConnecting then
      (.inProgress, ⟨none, true⟩, probeEvs st)
    else
      match env.dial with
      | .ok c => (.ok, ⟨some c, false⟩, probeEvs st ++ [Ev.dial])
      | .error e => (.connectFailed e, ⟨none, false⟩, probeEvs st ++ [Ev.dial])

/-- The terminal error values `send_command` can return. -/
inductive SendErr where
  /-- Line 92: `ensure_connected` still failing on the last attempt. -/
  | connectFailed (attempts : Nat) (cause : String)
  /-- Line 119: length-header write failing on the last attempt. -/
  | sendLenFailed (attempts : Nat) (cause : String)
  /-- Line 135: payload write failing on the last attempt. -/
  | sendBodyFailed (attempts : Nat) (cause : String)
  /-- Line 152: response-length read failing on the last attempt. -/
  | readLenFailed (attempts : Nat) (cause : String)
  /-- Line 171: response-body read failing on the last attempt. -/
  | readBodyFailed (attempts : Nat) (cause : String)
  /-- Line 187: response parse failing on the last attempt. -/
  | parseFailed (attempts : Nat) (cause : String)
  /-- Line 201: `TheaterError::ServerError` wrapping the server's message. -/
  | serverError (message : String)
  /-- Line 209: the fall-through after the loop (unreachable by design). -/
  | maxAttemptsFallthrough
deriving DecidableEq, Repr

/-- The attempt count referenced by a terminal error, when it carries one. -/
def SendErr.attemptsRef : SendErr → Option Nat
  | .connectFailed n _ => some n
  | .sendLenFailed n _ => some n
  | .sendBodyFailed n _ => some n
  | .readLenFailed n _ => some n
  | .readBodyFailed n _ => some n
  | .parseFailed n _ => some n
  | .serverError _ => none
  | .maxAttemptsFallthrough => none

/-- The underlying cause referenced by a terminal error, when it carries
one. -/
def SendErr.cause : SendErr → Option String
  | .connectFailed _ c => some c
  | .sendLenFailed _ c => some c
  | .sendBodyFailed _ c => some c
  | .readLenFailed _ c => some c
  | .readBodyFailed _ c => some c
  | .parseFailed _ c => some c
  | .serverError _ => none
  | .maxAttemptsFallthrough => none

/-- Outcome of the locked round-trip region of one attempt
(lines 109-194). -/
inductive StepOut where
  /-- A recoverable failure on a non-final attempt: the backoff sleep of
  `sleptMs` milliseconds was performed and the loop continues. -/
  | retry (sleptMs : Nat)
  /-- A `return Err(...)` out of the loop. -/
  | fatal (e : SendErr)
  /-- Line 205: `return Ok(response)`. -/
  | done (r : ManagementResponse)
  /-- Line 110: `connection_guard.as_mut().unwrap()` applied to `None`. -/
  | panicked
deriving DecidableEq, Repr

/-- The locked round-trip region of one attempt of `send_command`
(lines 109-194) as one atomic step: the mutex acquired at line 109 is held
through the writes, the reads, the parse, and even the backoff sleep of
this attempt, and is released only on `continue` / `return`.

This region is entered only after `ensure_connected` returned `Ok`, but it
re-acquires the lock, so it must re-read the slot: `as_mut().unwrap()`
(line 110) panics if the slot is empty by then.

Every write/read error clears the slot (lines 116, 132, 149, 168) before
the retry-or-fail policy runs; a parse error (lines 183-194) leaves the
slot untouched.  On a non-final attempt the policy sleeps `backoff` ms and
continues; on the final attempt it returns the terminal error. -/
def roundTripStep (st : SharedState) (env : AttemptEnv)
    (attempt maxAttempts backoff : Nat) : StepOut × SharedState × List Ev :=
  match st.slot with
  | none => (.panicked, st, [])
  | some _ =>
    match env.writeLenErr with
    | some e =>
      if attempt == maxAttempts then
        (.fatal (.sendLenFailed maxAttempts e), ⟨none, st.isConnecting⟩, [Ev.writeLen])
      else
        (.retry backoff, ⟨none, st.isConnecting⟩, [Ev.writeLen, Ev.sleep backoff])
    | none =>
    match env.writeBodyErr with
    | some e =>
      if attempt == maxAttempts then
        (.fatal (.sendBodyFailed maxAttempts e), ⟨none, st.isConnecting⟩,
          [Ev.writeLen, Ev.writeBody])
      else
        (.retry backoff, ⟨none, st.isConnecting⟩,
          [Ev.writeLen, Ev.writeBody, Ev.sleep backoff])
    | none =>
    match env.readLenErr with
    | some e =>
      if attempt == maxAttempts then
        (.fatal (.readLenFailed maxAttempts e), ⟨none, st.isConnecting⟩,
          [Ev.writeLen, Ev.writeBody, Ev.readLen])
      else
        (.retry backoff, ⟨none, st.isConnecting⟩,
          [Ev.writeLen, Ev.writeBody, Ev.readLen, Ev.sleep backoff])
    | none =>
    match env.readBodyErr with
    | some e =>
      if attempt == maxAttempts then
        (.fatal (.readBodyFailed maxAttempts e), ⟨none, st.isConnecting⟩,
          [Ev.writeLen, Ev.writeBody, Ev.readLen, Ev.readBody])
      else
        (.retry backoff, ⟨none, st.isConnecting⟩,
          [Ev.writeLen, Ev.writeBody, Ev.readLen, Ev.readBody, Ev.sleep backoff])
    | none =>
    match env.parse with
    | .error e =>
      if attempt == maxAttempts then
        (.fatal (.parseFailed maxAttempts e), st,
          [Ev.writeLen, Ev.writeBody, Ev.readLen, Ev.readBody])
      else
        (.retry backoff, st,
          [Ev.writeLen, Ev.writeBody, Ev.readLen, Ev.readBody, Ev.sleep backoff])
    | .ok resp =>
      match resp with
      | .Error message => (.fatal (.serverError message), st,
          [Ev.writeLen, Ev.writeBody, Ev.readLen, Ev.readBody])
      | r => (.done r, st, [Ev.writeLen, Ev.writeBody, Ev.readLen, Ev.readBody])

/-- The result of a whole `send_command` call. -/
inductive SendOutcome where
  | ok (r : ManagementResponse)
  | err (e : SendErr)
  | panicked
deriving DecidableEq, Repr

/-- The retry loop of `send_command` (lines 88-206) for a single caller.
`fuel` counts the remaining loop iterations (the `for` runs
`attempt in 1..=max_attempts`); `envs k` is the environment of attempt
`k`.  On loop exhaustion line 209 returns the fall-through error.

Per iteration: run `ensure_connected`; on failure either return the
terminal error (line 92, last attempt) or sleep `backoff` ms, double it
(lines 96-97) and continue.  Otherwise run the locked round trip; `retry`
continues with doubled backoff (the sleep already happened inside the
region), everything else ends the call. -/
def sendFuel (envs : Nat → AttemptEnv) (maxAttempts : Nat) :
    Nat → SharedState → Nat → Nat → SendOutcome × SharedState × List Ev
  | 0, st, _, _ => (.err .maxAttemptsFallthrough, st, [])
  | fuel + 1, st, attempt, backoff =>
    let env := envs attempt
    match (ensureStep st env).fst with
    | .ok =>
      let st1 := (ensureStep st env).snd.fst
      let evs1 := (ensureStep st env).snd.snd
      let rt := roundTripStep st1 env attempt maxAttempts backoff
      match rt.fst with
      | .retry _ =>
        let rec1 := sendFuel envs maxAttempts fuel rt.snd.fst (attempt + 1) (backoff * 2)
        (rec1.fst, rec1.snd.fst, evs1 ++ rt.snd.snd ++ rec1.snd.snd)
      | .fatal e => (.err e, rt.snd.fst, evs1 ++ rt.snd.snd)
      | .done r => (.ok r, rt.snd.fst, evs1 ++ rt.snd.snd)
      | .panicked => (.panicked, rt.snd.fst, evs1 ++ rt.snd.snd)
    | er =>
      let st1 := (ensureStep st env).snd.fst
      let evs1 := (ensureStep st env).snd.snd
      if attempt == maxAttempts then
        (.err (.connectFailed maxAttempts er.message), st1, evs1)
      else
        let rec1 := sendFuel envs maxAttempts fuel st1 (attempt + 1) (backoff * 2)
        (rec1.fst, rec1.snd.fst, evs1 ++ [Ev.sleep backoff] ++ rec1.snd.snd)

/-- `send_command` (lines 84-210): `max_attempts = 3` (line 85), initial
backoff 500 ms (line 86), attempts numbered from 1. -/
def send_command (st : SharedState) (envs : Nat → AttemptEnv) :
    SendOutcome × SharedState × List Ev :=
  sendFuel envs 3 3 st 1 500

/-- The sleep durations occurring in a trace, in order. -/
def sleeps (evs : List Ev) : List Nat :=
  evs.filterMap fun e => match e with | .sleep n => some n | _ => none

/-! ## Framing codec

Lines 102-104 build the request frame: the payload length is cast to `u32`
and written as 4 big-endian bytes ahead of the payload; line 161 parses the
4-byte response length with `u32::from_be_bytes`. -/

/-- Line 103: `message.len() as u32` (truncating cast). -/
def lenAsU32 (len : Nat) : Nat := len % 2 ^ 32

/-- Line 104: `u32::to_be_bytes` of a `u32` value. -/
def u32ToBeBytes (v : Nat) : List Nat :=
  [v / 2 ^ 24 % 256, v / 2 ^ 16 % 256, v / 2 ^ 8 % 256, v % 256]

/-- Line 161: `u32::from_be_bytes` of a 4-byte buffer. -/
def u32FromBeBytes (b : List Nat) : Nat :=
  match b with
  | [b0, b1, b2, b3] => b0 * 2 ^ 24 + b1 * 2 ^ 16 + b2 * 2 ^ 8 + b3
  | _ => 0

/-- The 4-byte length header written for a payload of length `len`
(lines 103-104, 113). -/
def encode_header (len : Nat) : List Nat := u32ToBeBytes (lenAsU32 len)

/-- The whole frame put on the wire for a payload: the length header
(line 113) followed by the payload bytes (line 129). -/
def encode (payload : List Nat) : List Nat := encode_header payload.length ++ payload

/-- The integer parse of a frame's first 4 bytes (lines 145-161). -/
def decode_header (b : List Nat) : Nat := u32FromBeBytes (b.take 4)

/-! ## Two concurrent `send_command` callers

The mutex on the connection slot makes each `ensure_connected` body and
each locked round-trip region (lines 109-194) atomic; between those two
regions of one attempt the caller holds no lock (it serializes the command
at lines 102-104), so other callers may run entire locked regions there.
Interleavings of those atomic steps are driven by a schedule: `false`
steps caller A, `true` steps caller B. -/

/-- Where a caller stands inside its `send_command` loop. -/
inductive Phase where
  /-- About to call `ensure_connected` for its current attempt (line 90). -/
  | atEnsure
  /-- `ensure_connected` returned `Ok`; about to re-acquire the lock at
  line 109 and run the round trip. -/
  | atRound
  /-- The call ended with this outcome. -/
  | halted (out : SendOutcome)
deriving DecidableEq, Repr

/-- The loop-local state of one `send_command` caller. -/
structure TaskState where
  attempt : Nat
  backoff : Nat
  phase : Phase
deriving DecidableEq, Repr

/-- One atomic step of one caller against the shared client state,
mirroring the branches of `sendFuel` for `max_attempts = 3`. -/
def taskStep (envs : Nat → AttemptEnv) (sh : SharedState) (t : TaskState) :
    SharedState × TaskState :=
  match t.phase with
  | .halted _ => (sh, t)
  | .atEnsure =>
    let es := ensureStep sh (envs t.attempt)
    match es.fst with
    | .ok => (es.snd.fst, { t with phase := .atRound })
    | er =>
      if t.attempt == 3 then
        (es.snd.fst, { t with phase := .halted (.err (.connectFailed 3 er.message)) })
      else
        (es.snd.fst, ⟨t.attempt + 1, t.backoff * 2, .atEnsure⟩)
  | .atRound =>
    let rt := roundTripStep sh (envs t.attempt) t.attempt 3 t.backoff
    match rt.fst with
    | .retry _ => (rt.snd.fst, ⟨t.attempt + 1, t.backoff * 2, .atEnsure⟩)
    | .fatal e => (rt.snd.fst, { t with phase := .halted (.err e) })
    | .done r => (rt.snd.fst, { t with phase := .halted (.ok r) })
    | .panicked => (rt.snd.fst, { t with phase := .halted .panicked })

/-- Two callers A and B sharing one `TheaterClient`. -/
structure Sys where
  shared : SharedState
  taskA : TaskState
  taskB : TaskState
deriving DecidableEq, Repr

/-- Run one scheduled step: `false` steps caller A, `true` steps B. -/
def sysStep (envsA envsB : Nat → AttemptEnv) (s : Sys) (pickB : Bool) : Sys :=
  if pickB then
    let r := taskStep envsB s.shared s.taskB
    ⟨r.fst, s.taskA, r.snd⟩
  else
    let r := taskStep envsA s.shared s.taskA
    ⟨r.fst, r.snd, s.taskB⟩

/-- Run a whole schedule. -/
def runSys (envsA envsB : Nat → AttemptEnv) (sched : List Bool) (s : Sys) : Sys :=
  sched.foldl (sysStep envsA envsB) s

/-- An attempt environment in which every network operation succeeds and
the server answers with a success payload. -/
def cleanEnv : AttemptEnv :=
  ⟨none, .ok 7, none, none, none, none, .ok (.success [42])⟩

/-- An attempt environment in which the length-header write fails
(the peer reset the connection) and everything else would succeed. -/
def resetEnv : AttemptEnv :=
  ⟨none, .ok 8, some "Connection reset by peer (os error 104)", none, none,
    none, .ok (.success [])⟩

/-- A client that connected successfully at construction (lines 35-39):
the slot holds stream `0` and the reconnecting flag is clear.  Both
callers are about to start attempt 1 with the initial 500 ms backoff. -/
def raceStart : Sys :=
  ⟨⟨some 0, false⟩, ⟨1, 500, .atEnsure⟩, ⟨1, 500, .atEnsure⟩⟩

/-- An attempt environment in which the dial is refused and everything
else would succeed. -/
def refusedEnv : AttemptEnv :=
  ⟨none, .error "Connection refused (os error 111)", none, none, none, none,
    .ok (.success [])⟩

/-- An attempt environment in which the transport works but the server
answers with the structured error payload. -/
def serverErrEnv : AttemptEnv :=
  ⟨none, .ok 9, none, none, none, none, .ok (.Error "actor not found")⟩

/-- An attempt environment in which the transport works but the response
body does not parse. -/
def parseFailEnv : AttemptEnv :=
  ⟨none, .ok 9, none, none, none, none, .error "expected value at line 1 column 1"⟩

/-- The transport (dial, write, or read) fails on this attempt, whatever
the slot held when the attempt started: some write or read of the round
trip fails, or the liveness probe fails and the re-dial fails too.  (A
dial failure with a live probed connection never surfaces, because the
dial is not attempted then.) -/
def transportFails (e : AttemptEnv) : Prop :=
  e.writeLenErr.isSome = true ∨ e.writeBodyErr.isSome = true
    ∨ e.readLenErr.isSome = true ∨ e.readBodyErr.isSome = true
    ∨ (e.probeErr.isSome = true ∧ ∃ d, e.dial = .error d)

/-- The underlying-cause texts an attempt with this environment can
produce: the write/read error texts as-is, and the dial error as wrapped
by `ensure_connected` (line 31 / line 69). -/
def envCauses (e : AttemptEnv) : List String :=
  e.writeLenErr.toList ++ e.writeBodyErr.toList ++ e.readLenErr.toList
    ++ e.readBodyErr.toList
    ++ (match e.dial with
        | .error d => ["Failed to connect to Theater server: " ++ d]
        | .ok _ => [])

/-- An attempt environment in which the liveness probe and the
length-header write both fail. -/
def allBrokenEnv : AttemptEnv :=
  ⟨some "Broken pipe (os error 32)", .ok 4,
    some "Connection reset by peer (os error 104)", none, none, none,
    .ok (.success [])⟩

/-! ## Helper lemmas -/

/-- `sleeps` distributes over trace concatenation. -/
theorem sleeps_append (l1 l2 : List Ev) :
    sleeps (l1 ++ l2) = sleeps l1 ++ sleeps l2 :=
  List.filterMap_append l1 l2 _

/-- The empty trace holds no sleeps. -/
theorem sleeps_nil : sleeps ([] : List Ev) = [] := rfl

/-- A lone sleep event is its duration. -/
theorem sleeps_sleep (b : Nat) : sleeps [Ev.sleep b] = [b] := rfl

/-- A leading sleep event contributes its duration. -/
theorem sleeps_cons_sleep (b : Nat) (l : List Ev) :
    sleeps (Ev.sleep b :: l) = b :: sleeps l := rfl

/-- `ensure_connected` never sets the reconnecting flag for good: a call
that starts with the flag clear ends with it clear. -/
theorem ensureStep_flag (st : SharedState) (env : AttemptEnv)
    (h : st.isConnecting = false) :
    ((ensureStep st env).snd.fst).isConnecting = false := by
  unfold ensureStep
  repeat' split
  all_goals simp_all

/-- When `ensure_connected` returns `Ok`, the state it leaves behind has a
connection in the slot. -/
theorem ensureStep_ok_slot (st : SharedState) (env : AttemptEnv)
    (h : (ensureStep st env).fst = .ok) :
    ∃ c, ((ensureStep st env).snd.fst).slot = some c := by
  unfold ensureStep at *
  cases hps : probedSlot st env <;> simp [hps] at h ⊢
  cases hic : st.isConnecting <;> simp [hic] at h
  cases hd : env.dial <;> simp [hd] at h ⊢

/-- With the flag clear, `ensure_connected` cannot fail with
`inProgress`. -/
theorem ensureStep_not_inProgress (st : SharedState) (env : AttemptEnv)
    (h : st.isConnecting = false) :
    (ensureStep st env).fst ≠ .inProgress := by
  unfold ensureStep
  cases hps : probedSlot st env <;> simp [h]
  cases hd : env.dial <;> simp

/-- A `connectFailed` result of `ensure_connected` carries exactly the
dial's error. -/
theorem ensureStep_connectFailed_dial (st : SharedState) (env : AttemptEnv)
    (d : String) (h : (ensureStep st env).fst = .connectFailed d) :
    env.dial = .error d := by
  unfold ensureStep at h
  cases hps : probedSlot st env <;> simp [hps] at h
  cases hic : st.isConnecting <;> simp [hic] at h
  cases hd : env.dial <;> simp [hd] at h
  simp [h]

/-- When `ensure_connected` returns `Ok`, either the probe succeeded or
the dial succeeded. -/
theorem ensureStep_ok_probe_or_dial (st : SharedState) (env : AttemptEnv)
    (h : (ensureStep st env).fst = .ok) :
    env.probeErr = none ∨ ∃ c, env.dial = .ok c := by
  unfold ensureStep at h
  cases hps : probedSlot st env with
  | some c =>
    left
    unfold probedSlot at hps
    cases hs : st.slot <;> simp [hs] at hps
    cases hp : env.probeErr <;> simp [hp] at hps ⊢
  | none =>
    simp [hps] at h
    cases hic : st.isConnecting <;> simp [hic] at h
    cases hd : env.dial <;> simp [hd] at h ⊢

/-- The round-trip region never touches the reconnecting flag. -/
theorem roundTripStep_flag (st : SharedState) (env : AttemptEnv)
    (a m b : Nat) :
    ((roundTripStep st env a m b).snd.fst).isConnecting = st.isConnecting := by
  unfold roundTripStep
  repeat' split
  all_goals rfl

/-- `ensure_connected` performs no backoff sleep of its own. -/
theorem ensureStep_sleeps (st : SharedState) (env : AttemptEnv) :
    sleeps (ensureStep st env).snd.snd = [] := by
  unfold ensureStep probeEvs
  repeat' split
  all_goals simp [sleeps]

/-- The round-trip region sleeps exactly the current backoff when it ends
in `retry`, and does not sleep otherwise. -/
theorem roundTripStep_sleeps (st : SharedState) (env : AttemptEnv)
    (a m b : Nat) :
    ((roundTripStep st env a m b).fst = .retry b
        ∧ sleeps (roundTripStep st env a m b).snd.snd = [b])
    ∨ ((∀ s, (roundTripStep st env a m b).fst ≠ .retry s)
        ∧ sleeps (roundTripStep st env a m b).snd.snd = []) := by
  unfold roundTripStep
  repeat' split
  all_goals simp [sleeps]

/-- On the final attempt the round-trip region never sleeps. -/
theorem roundTripStep_final_sleeps (st : SharedState) (env : AttemptEnv)
    (a m b : Nat) (h : (a == m) = true) :
    sleeps (roundTripStep st env a m b).snd.snd = [] := by
  unfold roundTripStep
  repeat' split
  all_goals simp_all [sleeps]

/-- A failing write or read on a non-final attempt makes the round trip
retry (after the backoff sleep). -/
theorem roundTripStep_io_retry (st : SharedState) (env : AttemptEnv)
    (a m b : Nat) (c : Conn) (hs : st.slot = some c)
    (hio : env.writeLenErr.isSome = true ∨ env.writeBodyErr.isSome = true
      ∨ env.readLenErr.isSome = true ∨ env.readBodyErr.isSome = true)
    (hm : (a == m) = false) :
    (roundTripStep st env a m b).fst = .retry b := by
  rcases env with ⟨pe, d, w1, w2, r1, r2, pr⟩
  cases w1 <;> cases w2 <;> cases r1 <;> cases r2 <;>
    simp_all [roundTripStep]

/-- A failing write or read on the final attempt makes the round trip
return a terminal error that references the attempt count `m` and carries
one of this attempt's underlying causes. -/
theorem roundTripStep_io_final (st : SharedState) (env : AttemptEnv)
    (a m b : Nat) (c : Conn) (hs : st.slot = some c)
    (hio : env.writeLenErr.isSome = true ∨ env.writeBodyErr.isSome = true
      ∨ env.readLenErr.isSome = true ∨ env.readBodyErr.isSome = true)
    (hm : (a == m) = true) :
    ∃ er, (roundTripStep st env a m b).fst = .fatal er
      ∧ er.attemptsRef = some m
      ∧ ∃ ca, er.cause = some ca ∧ ca ∈ envCauses env := by
  rcases env with ⟨pe, d, w1, w2, r1, r2, pr⟩
  cases w1 <;> cases w2 <;> cases r1 <;> cases r2 <;>
    simp_all [roundTripStep, envCauses, SendErr.attemptsRef, SendErr.cause]

/-- A transport failure on a non-final attempt advances the retry loop to
the next attempt with doubled backoff, keeping the flag clear. -/
theorem sendFuel_advance (envs : Nat → AttemptEnv) (fuel : Nat)
    (st : SharedState) (a b : Nat)
    (hflag : st.isConnecting = false) (ht : transportFails (envs a))
    (ha : (a == 3) = false) :
    ∃ st', st'.isConnecting = false
      ∧ (sendFuel envs 3 (fuel + 1) st a b).fst
          = (sendFuel envs 3 fuel st' (a + 1) (b * 2)).fst := by
  cases hE : (ensureStep st (envs a)).fst with
  | ok =>
    obtain ⟨c, hc⟩ := ensureStep_ok_slot st (envs a) hE
    have hfl := ensureStep_flag st (envs a) hflag
    have hio : (envs a).writeLenErr.isSome = true
        ∨ (envs a).writeBodyErr.isSome = true
        ∨ (envs a).readLenErr.isSome = true
        ∨ (envs a).readBodyErr.isSome = true := by
      rcases ht with h | h | h | h | ⟨hps, d, hd⟩
      · exact Or.inl h
      · exact Or.inr (Or.inl h)
      · exact Or.inr (Or.inr (Or.inl h))
      · exact Or.inr (Or.inr (Or.inr h))
      · rcases ensureStep_ok_probe_or_dial st (envs a) hE with hp | ⟨c2, hd2⟩
        · rw [hp] at hps
          simp at hps
        · rw [hd2] at hd
          exact absurd hd (by simp)
    have hr := roundTripStep_io_retry ((ensureStep st (envs a)).snd.fst)
      (envs a) a 3 b c hc hio ha
    have hrf := roundTripStep_flag ((ensureStep st (envs a)).snd.fst) (envs a) a 3 b
    refine ⟨(roundTripStep ((ensureStep st (envs a)).snd.fst) (envs a) a 3 b).snd.fst,
      ?_, ?_⟩
    · rw [hrf]
      exact hfl
    · simp only [sendFuel, hE, hr]
  | connectFailed d =>
    refine ⟨(ensureStep st (envs a)).snd.fst, ensureStep_flag st (envs a) hflag, ?_⟩
    simp only [sendFuel, hE, ha]
    simp
  | inProgress => exact absurd hE (ensureStep_not_inProgress st (envs a) hflag)

/-- A transport failure on the final attempt makes the whole call return a
terminal error referencing the attempt count 3 and one of the final
attempt's underlying causes. -/
theorem sendFuel_final (envs : Nat → AttemptEnv) (fuel : Nat)
    (st : SharedState) (b : Nat)
    (hflag : st.isConnecting = false) (ht : transportFails (envs 3)) :
    ∃ er, (sendFuel envs 3 (fuel + 1) st 3 b).fst = .err er
      ∧ er.attemptsRef = some 3
      ∧ ∃ ca, er.cause = some ca ∧ ca ∈ envCauses (envs 3) := by
  cases hE : (ensureStep st (envs 3)).fst with
  | ok =>
    obtain ⟨c, hc⟩ := ensureStep_ok_slot st (envs 3) hE
    have hio : (envs 3).writeLenErr.isSome = true
        ∨ (envs 3).writeBodyErr.isSome = true
        ∨ (envs 3).readLenErr.isSome = true
        ∨ (envs 3).readBodyErr.isSome = true := by
      rcases ht with h | h | h | h | ⟨hps, d, hd⟩
      · exact Or.inl h
      · exact Or.inr (Or.inl h)
      · exact Or.inr (Or.inr (Or.inl h))
      · exact Or.inr (Or.inr (Or.inr h))
      · rcases ensureStep_ok_probe_or_dial st (envs 3) hE with hp | ⟨c2, hd2⟩
        · rw [hp] at hps
          simp at hps
        · rw [hd2] at hd
          exact absurd hd (by simp)
    obtain ⟨er, hrt, hattr, ca, hca, hmem⟩ :=
      roundTripStep_io_final ((ensureStep st (envs 3)).snd.fst) (envs 3) 3 3 b c hc
        hio (by decide)
    refine ⟨er, ?_, hattr, ca, hca, hmem⟩
    simp only [sendFuel, hE, hrt]
  | connectFailed d =>
    have hd := ensureStep_connectFailed_dial st (envs 3) d hE
    refine ⟨.connectFailed 3 (EnsureResult.connectFailed d).message, ?_, rfl, ?_⟩
    · simp only [sendFuel, hE]
      simp
    · exact ⟨_, rfl, by simp [envCauses, hd, EnsureResult.message]⟩
  | inProgress => exact absurd hE (ensureStep_not_inProgress st (envs 3) hflag)

/-- The exhausted loop (line 209). -/
theorem sendFuel_zero (envs : Nat → AttemptEnv) (m : Nat) (st : SharedState)
    (a b : Nat) :
    sendFuel envs m 0 st a b = (.err .maxAttemptsFallthrough, st, []) := rfl

/-- One loop iteration in which `ensure_connected` succeeds and the round
trip ends in `retry`: the loop continues on the round trip's state with
doubled backoff. -/
theorem sendFuel_step_retry (envs : Nat → AttemptEnv) (m fuel : Nat)
    (st : SharedState) (a b s : Nat)
    (hE : (ensureStep st (envs a)).fst = .ok)
    (hR : (roundTripStep ((ensureStep st (envs a)).snd.fst) (envs a) a m b).fst
      = .retry s) :
    sendFuel envs m (fuel + 1) st a b
      = ((sendFuel envs m fuel
            ((roundTripStep ((ensureStep st (envs a)).snd.fst) (envs a) a m b).snd.fst)
            (a + 1) (b * 2)).fst,
         (sendFuel envs m fuel
            ((roundTripStep ((ensureStep st (envs a)).snd.fst) (envs a) a m b).snd.fst)
            (a + 1) (b * 2)).snd.fst,
         (ensureStep st (envs a)).snd.snd
           ++ (roundTripStep ((ensureStep st (envs a)).snd.fst) (envs a) a m b).snd.snd
           ++ (sendFuel envs m fuel
                ((roundTripStep ((ensureStep st (envs a)).snd.fst) (envs a) a m b).snd.fst)
                (a + 1) (b * 2)).snd.snd) := by
  simp only [sendFuel, hE, hR]

/-- One loop iteration in which `ensure_connected` succeeds and the round
trip returns a terminal error. -/
theorem sendFuel_step_fatal (envs : Nat → AttemptEnv) (m fuel : Nat)
    (st : SharedState) (a b : Nat) (e : SendErr)
    (hE : (ensureStep st (envs a)).fst = .ok)
    (hR : (roundTripStep ((ensureStep st (envs a)).snd.fst) (envs a) a m b).fst
      = .fatal e) :
    sendFuel envs m (fuel + 1) st a b
      = (.err e,
         (roundTripStep ((ensureStep st (envs a)).snd.fst) (envs a) a m b).snd.fst,
         (ensureStep st (envs a)).snd.snd
           ++ (roundTripStep ((ensureStep st (envs a)).snd.fst) (envs a) a m b).snd.snd) := by
  simp only [sendFuel, hE, hR]

/-- One loop iteration in which `ensure_connected` succeeds and the round
trip returns the decoded response. -/
theorem sendFuel_step_done (envs : Nat → AttemptEnv) (m fuel : Nat)
    (st : SharedState) (a b : Nat) (r : ManagementResponse)
    (hE : (ensureStep st (envs a)).fst = .ok)
    (hR : (roundTripStep ((ensureStep st (envs a)).snd.fst) (envs a) a m b).fst
      = .done r) :
    sendFuel envs m (fuel + 1) st a b
      = (.ok r,
         (roundTripStep ((ensureStep st (envs a)).snd.fst) (envs a) a m b).snd.fst,
         (ensureStep st (envs a)).snd.snd
           ++ (roundTripStep ((ensureStep st (envs a)).snd.fst) (envs a) a m b).snd.snd) := by
  simp only [sendFuel, hE, hR]

/-- One loop iteration in which `ensure_connected` succeeds and the round
trip hits the unwrap panic. -/
theorem sendFuel_step_panic (envs : Nat → AttemptEnv) (m fuel : Nat)
    (st : SharedState) (a b : Nat)
    (hE : (ensureStep st (envs a)).fst = .ok)
    (hR : (roundTripStep ((ensureStep st (envs a)).snd.fst) (envs a) a m b).fst
      = .panicked) :
    sendFuel envs m (fuel + 1) st a b
      = (.panicked,
         (roundTripStep ((ensureStep st (envs a)).snd.fst) (envs a) a m b).snd.fst,
         (ensureStep st (envs a)).snd.snd
           ++ (roundTripStep ((ensureStep st (envs a)).snd.fst) (envs a) a m b).snd.snd) := by
  simp only [sendFuel, hE, hR]

/-- One non-final loop iteration in which `ensure_connected` fails: sleep
the current backoff, double it and continue. -/
theorem sendFuel_step_efail_cont (envs : Nat → AttemptEnv) (m fuel : Nat)
    (st : SharedState) (a b : Nat) (er : EnsureResult)
    (hE : (ensureStep st (envs a)).fst = er) (hne : er ≠ .ok)
    (ha : (a == m) = false) :
    sendFuel envs m (fuel + 1) st a b
      = ((sendFuel envs m fuel ((ensureStep st (envs a)).snd.fst) (a + 1) (b * 2)).fst,
         (sendFuel envs m fuel ((ensureStep st (envs a)).snd.fst) (a + 1) (b * 2)).snd.fst,
         (ensureStep st (envs a)).snd.snd ++ [Ev.sleep b]
           ++ (sendFuel envs m fuel ((ensureStep st (envs a)).snd.fst) (a + 1) (b * 2)).snd.snd) := by
  cases er with
  | ok => exact absurd rfl hne
  | connectFailed d =>
    simp only [sendFuel, hE, ha]
    simp
  | inProgress =>
    simp only [sendFuel, hE, ha]
    simp

/-- The final loop iteration with `ensure_connected` failing: return the
terminal connect error naming the attempt budget (line 92). -/
theorem sendFuel_step_efail_last (envs : Nat → AttemptEnv) (m fuel : Nat)
    (st : SharedState) (a b : Nat) (er : EnsureResult)
    (hE : (ensureStep st (envs a)).fst = er) (hne : er ≠ .ok)
    (ha : (a == m) = true) :
    sendFuel envs m (fuel + 1) st a b
      = (.err (.connectFailed m er.message), (ensureStep st (envs a)).snd.fst,
         (ensureStep st (envs a)).snd.snd) := by
  cases er with
  | ok => exact absurd rfl hne
  | connectFailed d =>
    simp only [sendFuel, hE, ha]
    simp
  | inProgress =>
    simp only [sendFuel, hE, ha]
    simp

/-- With one loop iteration left and the attempt counter at the maximum,
no further backoff sleep occurs. -/
theorem sendFuel_sleeps_one (envs : Nat → AttemptEnv) (st : SharedState)
    (b : Nat) :
    sleeps (sendFuel envs 3 1 st 3 b).snd.snd = [] := by
  cases hE : (ensureStep st (envs 3)).fst with
  | ok =>
    cases hR : (roundTripStep ((ensureStep st (envs 3)).snd.fst) (envs 3) 3 3 b).fst
        with
    | retry s =>
      rw [sendFuel_step_retry envs 3 0 st 3 b s hE hR, sendFuel_zero]
      simp [sleeps_append, ensureStep_sleeps,
        roundTripStep_final_sleeps _ _ 3 3 b rfl, sleeps_nil]
    | fatal e =>
      rw [sendFuel_step_fatal envs 3 0 st 3 b e hE hR]
      simp [sleeps_append, ensureStep_sleeps,
        roundTripStep_final_sleeps _ _ 3 3 b rfl]
    | done r =>
      rw [sendFuel_step_done envs 3 0 st 3 b r hE hR]
      simp [sleeps_append, ensureStep_sleeps,
        roundTripStep_final_sleeps _ _ 3 3 b rfl]
    | panicked =>
      rw [sendFuel_step_panic envs 3 0 st 3 b hE hR]
      simp [sleeps_append, ensureStep_sleeps,
        roundTripStep_final_sleeps _ _ 3 3 b rfl]
  | connectFailed d =>
    rw [sendFuel_step_efail_last envs 3 0 st 3 b _ hE (by simp) rfl]
    simp [ensureStep_sleeps]
  | inProgress =>
    rw [sendFuel_step_efail_last envs 3 0 st 3 b _ hE (by simp) rfl]
    simp [ensureStep_sleeps]

/-- With two loop iterations left (attempt 2 of 3), at most one backoff
sleep, of the current delay, still occurs. -/
theorem sendFuel_sleeps_two (envs : Nat → AttemptEnv) (st : SharedState)
    (b : Nat) :
    sleeps (sendFuel envs 3 2 st 2 b).snd.snd = []
    ∨ sleeps (sendFuel envs 3 2 st 2 b).snd.snd = [b] := by
  cases hE : (ensureStep st (envs 2)).fst with
  | ok =>
    rcases roundTripStep_sleeps ((ensureStep st (envs 2)).snd.fst) (envs 2) 2 3 b
        with ⟨hr, hsl⟩ | ⟨hnr, hsl⟩
    · right
      rw [sendFuel_step_retry envs 3 1 st 2 b b hE hr]
      simp [sleeps_append, ensureStep_sleeps, hsl, sendFuel_sleeps_one]
    · cases hR : (roundTripStep ((ensureStep st (envs 2)).snd.fst) (envs 2) 2 3 b).fst
        with
      | retry s => exact absurd hR (hnr s)
      | fatal e =>
        left
        rw [sendFuel_step_fatal envs 3 1 st 2 b e hE hR]
        simp [sleeps_append, ensureStep_sleeps, hsl]
      | done r =>
        left
        rw [sendFuel_step_done envs 3 1 st 2 b r hE hR]
        simp [sleeps_append, ensureStep_sleeps, hsl]
      | panicked =>
        left
        rw [sendFuel_step_panic envs 3 1 st 2 b hE hR]
        simp [sleeps_append, ensureStep_sleeps, hsl]
  | connectFailed d =>
    right
    rw [sendFuel_step_efail_cont envs 3 1 st 2 b _ hE (by simp) rfl]
    simp [sleeps_append, ensureStep_sleeps, sleeps_sleep, sleeps_cons_sleep, sendFuel_sleeps_one]
  | inProgress =>
    right
    rw [sendFuel_step_efail_cont envs 3 1 st 2 b _ hE (by simp) rfl]
    simp [sleeps_append, ensureStep_sleeps, sleeps_sleep, sleeps_cons_sleep, sendFuel_sleeps_one]

/-- A full three-attempt loop starting at backoff `b` performs the sleep
list `[]`, `[b]` or `[b, b*2]`. -/
theorem sendFuel_sleeps_three (envs : Nat → AttemptEnv) (st : SharedState)
    (b : Nat) :
    sleeps (sendFuel envs 3 3 st 1 b).snd.snd = []
    ∨ sleeps (sendFuel envs 3 3 st 1 b).snd.snd = [b]
    ∨ sleeps (sendFuel envs 3 3 st 1 b).snd.snd = [b, b * 2] := by
  cases hE : (ensureStep st (envs 1)).fst with
  | ok =>
    rcases roundTripStep_sleeps ((ensureStep st (envs 1)).snd.fst) (envs 1) 1 3 b
        with ⟨hr, hsl⟩ | ⟨hnr, hsl⟩
    · rcases sendFuel_sleeps_two envs
          ((roundTripStep ((ensureStep st (envs 1)).snd.fst) (envs 1) 1 3 b).snd.fst)
          (b * 2) with h2 | h2
      · right; left
        rw [sendFuel_step_retry envs 3 2 st 1 b b hE hr]
        simp [sleeps_append, ensureStep_sleeps, hsl, h2]
      · right; right
        rw [sendFuel_step_retry envs 3 2 st 1 b b hE hr]
        simp [sleeps_append, ensureStep_sleeps, hsl, h2]
    · cases hR : (roundTripStep ((ensureStep st (envs 1)).snd.fst) (envs 1) 1 3 b).fst
        with
      | retry s => exact absurd hR (hnr s)
      | fatal e =>
        left
        rw [sendFuel_step_fatal envs 3 2 st 1 b e hE hR]
        simp [sleeps_append, ensureStep_sleeps, hsl]
      | done r =>
        left
        rw [sendFuel_step_done envs 3 2 st 1 b r hE hR]
        simp [sleeps_append, ensureStep_sleeps, hsl]
      | panicked =>
        left
        rw [sendFuel_step_panic envs 3 2 st 1 b hE hR]
        simp [sleeps_append, ensureStep_sleeps, hsl]
  | connectFailed d =>
    rcases sendFuel_sleeps_two envs ((ensureStep st (envs 1)).snd.fst) (b * 2)
        with h2 | h2
    · right; left
      rw [sendFuel_step_efail_cont envs 3 2 st 1 b _ hE (by simp) rfl]
      simp [sleeps_append, ensureStep_sleeps, sleeps_sleep, sleeps_cons_sleep, h2]
    · right; right
      rw [sendFuel_step_efail_cont envs 3 2 st 1 b _ hE (by simp) rfl]
      simp [sleeps_append, ensureStep_sleeps, sleeps_sleep, sleeps_cons_sleep, h2]
  | inProgress =>
    rcases sendFuel_sleeps_two envs ((ensureStep st (envs 1)).snd.fst) (b * 2)
        with h2 | h2
    · right; left
      rw [sendFuel_step_efail_cont envs 3 2 st 1 b _ hE (by simp) rfl]
      simp [sleeps_append, ensureStep_sleeps, sleeps_sleep, sleeps_cons_sleep, h2]
    · right; right
      rw [sendFuel_step_efail_cont envs 3 2 st 1 b _ hE (by simp) rfl]
      simp [sleeps_append, ensureStep_sleeps, sleeps_sleep, sleeps_cons_sleep, h2]

/-! ## Claim theorems -/

/-- Taking 4 bytes of a frame that starts with 4 explicit bytes yields
exactly those bytes. -/
theorem take_four_append (a b c d : Nat) (l : List Nat) :
    ([a, b, c, d] ++ l).take 4 = [a, b, c, d] := rfl

/-- Taking 4 bytes of a 4-byte header is the header. -/
theorem take_four (a b c d : Nat) : [a, b, c, d].take 4 = [a, b, c, d] := rfl

/-- C9: for every payload P of length at most 2^20 bytes, the 4-byte
unsigned big-endian length header round-trips —
`decode_header (encode_header (len P)) = len P`, also through the full
frame `encode P` — and the header of the empty payload is the valid
all-zero header. -/
theorem length_header_roundtrip (P : List Nat) (h : P.length ≤ 2 ^ 20) :
    decode_header (encode P) = P.length
    ∧ decode_header (encode_header P.length) = P.length
    ∧ encode ([] : List Nat) = [0, 0, 0, 0] := by
  refine ⟨?_, ?_, rfl⟩
  · simp only [decode_header, encode, encode_header, u32ToBeBytes, lenAsU32,
      take_four_append, u32FromBeBytes]
    norm_num
    omega
  · simp only [decode_header, encode_header, u32ToBeBytes, lenAsU32,
      take_four, u32FromBeBytes]
    norm_num
    omega

/-- Witness for C9 at a concrete 300-byte payload. -/
theorem length_header_roundtrip_witness :
    (List.replicate 300 7).length ≤ 2 ^ 20
    ∧ decode_header (encode (List.replicate 300 7)) = (List.replicate 300 7).length :=
  ⟨by rw [List.length_replicate]; norm_num,
   (length_header_roundtrip (List.replicate 300 7)
     (by rw [List.length_replicate]; norm_num)).1⟩

/-- C2: whenever `ensure_connected` returns success the connection slot
contains a transport handle; whenever the dial fails (the slot being empty
after the probe and the flag free so that the dial is actually attempted),
`ensure_connected` leaves the slot empty and returns the dial error. -/
theorem ensure_connected_postcondition (st : SharedState) (env : AttemptEnv) :
    ((ensureStep st env).fst = .ok →
      ((ensureStep st env).snd.fst).slot.isSome = true)
    ∧ ∀ e, probedSlot st env = none → st.isConnecting = false →
        env.dial = .error e →
        (ensureStep st env).fst = .connectFailed e
          ∧ ((ensureStep st env).snd.fst).slot = none := by
  constructor
  · intro h
    obtain ⟨c, hc⟩ := ensureStep_ok_slot st env h
    simp [hc]
  · intro e hps hic hd
    simp [ensureStep, hps, hic, hd]

/-- Witness for C2: a live probed connection is kept in the slot, and a
refused dial leaves the slot empty with the dial's error. -/
theorem ensure_connected_postcondition_witness :
    ((ensureStep ⟨some 5, false⟩ cleanEnv).snd.fst).slot.isSome = true
    ∧ ((ensureStep ⟨none, false⟩ refusedEnv).fst
          = .connectFailed "Connection refused (os error 111)"
        ∧ ((ensureStep ⟨none, false⟩ refusedEnv).snd.fst).slot = none) :=
  ⟨(ensure_connected_postcondition ⟨some 5, false⟩ cleanEnv).1 rfl,
   (ensure_connected_postcondition ⟨none, false⟩ refusedEnv).2
     "Connection refused (os error 111)" rfl rfl rfl⟩

/-- C3: a caller of `ensure_connected` that finds the slot empty while the
reconnecting flag is already held fails immediately with the "connection
attempt already in progress" error, does not dial, does not sleep, and
leaves the state unchanged. -/
theorem ensure_in_progress_fail_fast (st : SharedState) (env : AttemptEnv)
    (hslot : st.slot = none) (hflag : st.isConnecting = true) :
    (ensureStep st env).fst = .inProgress
    ∧ (ensureStep st env).fst.message = "Connection attempt already in progress"
    ∧ (ensureStep st env).snd.fst = st
    ∧ Ev.dial ∉ (ensureStep st env).snd.snd
    ∧ sleeps (ensureStep st env).snd.snd = [] := by
  obtain ⟨slot, flag⟩ := st
  replace hslot : slot = none := hslot
  replace hflag : flag = true := hflag
  subst hslot
  subst hflag
  simp [ensureStep, probedSlot, probeEvs, sleeps, EnsureResult.message]

/-- Witness for C3 at an empty slot with the flag held. -/
theorem ensure_in_progress_fail_fast_witness :
    (ensureStep ⟨none, true⟩ cleanEnv).fst = .inProgress
    ∧ (ensureStep ⟨none, true⟩ cleanEnv).fst.message
        = "Connection attempt already in progress"
    ∧ (ensureStep ⟨none, true⟩ cleanEnv).snd.fst = ⟨none, true⟩
    ∧ Ev.dial ∉ (ensureStep ⟨none, true⟩ cleanEnv).snd.snd
    ∧ sleeps (ensureStep ⟨none, true⟩ cleanEnv).snd.snd = [] :=
  ensure_in_progress_fail_fast ⟨none, true⟩ cleanEnv rfl rfl

/-- C8: every call of `ensure_connected` that can claim the reconnecting
flag — it starts with the flag clear — has the flag clear again on return,
on the dial-success path, the dial-failure path, and the no-dial path
alike: the flag never remains set once the reconnect attempt completes. -/
theorem reconnect_flag_cleared (st : SharedState) (env : AttemptEnv)
    (h : st.isConnecting = false) :
    ((ensureStep st env).snd.fst).isConnecting = false :=
  ensureStep_flag st env h

/-- Witness for C8 on the dial-success and the dial-failure path. -/
theorem reconnect_flag_cleared_witness :
    ((ensureStep ⟨none, false⟩ cleanEnv).snd.fst).isConnecting = false
    ∧ ((ensureStep ⟨none, false⟩ refusedEnv).snd.fst).isConnecting = false :=
  ⟨reconnect_flag_cleared ⟨none, false⟩ cleanEnv rfl,
   reconnect_flag_cleared ⟨none, false⟩ refusedEnv rfl⟩

/-- C7: after any failed I/O operation against the connection the slot is
cleared before the error is acted upon: a failed liveness probe empties
the probed slot inside `ensure_connected`, and a failed length-header
write, payload write, length read or body read leaves the round trip's
state with an empty slot (in both the retry and the terminal branch). -/
theorem io_failure_clears_slot (st : SharedState) (env : AttemptEnv)
    (a m b : Nat) (c : Conn) (e : String) :
    (st.slot = some c → env.probeErr = some e → probedSlot st env = none)
    ∧ (st.slot = some c →
        (env.writeLenErr.isSome = true ∨ env.writeBodyErr.isSome = true
          ∨ env.readLenErr.isSome = true ∨ env.readBodyErr.isSome = true) →
        ((roundTripStep st env a m b).snd.fst).slot = none) := by
  constructor
  · intro hs hp
    simp [probedSlot, hs, hp]
  · intro hs hio
    rcases env with ⟨pe, d, w1, w2, r1, r2, pr⟩
    cases w1 <;> cases w2 <;> cases r1 <;> cases r2 <;>
      simp_all [roundTripStep] <;>
      first
        | rfl
        | (split <;> rfl)

/-- Witness for C7: a dead probe clears the probed slot, and a reset on
the length-header write clears the slot in the round trip. -/
theorem io_failure_clears_slot_witness :
    probedSlot ⟨some 3, false⟩ allBrokenEnv = none
    ∧ ((roundTripStep ⟨some 3, false⟩ allBrokenEnv 1 3 500).snd.fst).slot = none :=
  ⟨(io_failure_clears_slot ⟨some 3, false⟩ allBrokenEnv 1 3 500 3
      "Broken pipe (os error 32)").1 rfl rfl,
   (io_failure_clears_slot ⟨some 3, false⟩ allBrokenEnv 1 3 500 3
      "Broken pipe (os error 32)").2 rfl (Or.inl rfl)⟩

/-- C4: a response decoded as the structured error payload makes `send`
return the server's message as a ServerError at once: on any attempt `a`
and with any remaining loop budget `fuel`, the call ends there with no
further attempt, no backoff sleep in the trace, and the state untouched. -/
theorem server_error_immediate (envs : Nat → AttemptEnv) (fuel : Nat)
    (st : SharedState) (a b : Nat) (c : Conn) (msg : String)
    (hs : st.slot = some c)
    (hp : (envs a).probeErr = none)
    (h1 : (envs a).writeLenErr = none) (h2 : (envs a).writeBodyErr = none)
    (h3 : (envs a).readLenErr = none) (h4 : (envs a).readBodyErr = none)
    (hr : (envs a).parse = .ok (.Error msg)) :
    sendFuel envs 3 (fuel + 1) st a b
      = (.err (.serverError msg), st,
         [Ev.probe, Ev.writeLen, Ev.writeBody, Ev.readLen, Ev.readBody]) := by
  obtain ⟨slot, flag⟩ := st
  replace hs : slot = some c := hs
  subst hs
  have hE : ensureStep ⟨some c, flag⟩ (envs a)
      = (.ok, ⟨some c, flag⟩, [Ev.probe]) := by
    simp [ensureStep, probedSlot, probeEvs, hp]
  have hR : roundTripStep ⟨some c, flag⟩ (envs a) a 3 b
      = (.fatal (.serverError msg), ⟨some c, flag⟩,
         [Ev.writeLen, Ev.writeBody, Ev.readLen, Ev.readBody]) := by
    simp [roundTripStep, h1, h2, h3, h4, hr]
  rw [sendFuel_step_fatal envs 3 fuel ⟨some c, flag⟩ a b (.serverError msg)
    (by rw [hE]) (by rw [hE]; rw [hR])]
  rw [hE]
  simp [hE, hR]

/-- Witness for C4: the very first attempt of a `send_command` call ends
in the ServerError, with the two remaining attempts unconsumed. -/
theorem server_error_immediate_witness :
    send_command ⟨some 0, false⟩ (fun _ => serverErrEnv)
      = (.err (.serverError "actor not found"), ⟨some 0, false⟩,
         [Ev.probe, Ev.writeLen, Ev.writeBody, Ev.readLen, Ev.readBody]) :=
  server_error_immediate (fun _ => serverErrEnv) 2 ⟨some 0, false⟩ 1 500 0
    "actor not found" rfl rfl rfl rfl rfl rfl rfl

/-- C10: a response body that fails to deserialize on a non-final attempt
makes `send` sleep the current backoff and repeat the whole round trip,
and — unlike a transport error — leaves the connection slot untouched: the
next attempt restarts from exactly the same state `st`, reusing the
existing connection. -/
theorem parse_failure_keeps_connection (envs : Nat → AttemptEnv) (fuel : Nat)
    (st : SharedState) (a b : Nat) (c : Conn) (e : String)
    (hs : st.slot = some c)
    (hp : (envs a).probeErr = none)
    (h1 : (envs a).writeLenErr = none) (h2 : (envs a).writeBodyErr = none)
    (h3 : (envs a).readLenErr = none) (h4 : (envs a).readBodyErr = none)
    (hr : (envs a).parse = .error e)
    (ha : (a == 3) = false) :
    sendFuel envs 3 (fuel + 1) st a b
      = ((sendFuel envs 3 fuel st (a + 1) (b * 2)).fst,
         (sendFuel envs 3 fuel st (a + 1) (b * 2)).snd.fst,
         Ev.probe :: Ev.writeLen :: Ev.writeBody :: Ev.readLen :: Ev.readBody
           :: Ev.sleep b :: (sendFuel envs 3 fuel st (a + 1) (b * 2)).snd.snd) := by
  obtain ⟨slot, flag⟩ := st
  replace hs : slot = some c := hs
  subst hs
  have hE : ensureStep ⟨some c, flag⟩ (envs a)
      = (.ok, ⟨some c, flag⟩, [Ev.probe]) := by
    simp [ensureStep, probedSlot, probeEvs, hp]
  have hR : roundTripStep ⟨some c, flag⟩ (envs a) a 3 b
      = (.retry b, ⟨some c, flag⟩,
         [Ev.writeLen, Ev.writeBody, Ev.readLen, Ev.readBody, Ev.sleep b]) := by
    simp [roundTripStep, h1, h2, h3, h4, hr, ha]
  rw [sendFuel_step_retry envs 3 fuel ⟨some c, flag⟩ a b b
    (by rw [hE]) (by rw [hE]; rw [hR])]
  rw [hE]
  simp [hE, hR]

/-- Witness for C10: a garbled response body on attempt 1 re-runs the loop
from the same state with the slot still holding connection 0. -/
theorem parse_failure_keeps_connection_witness :
    send_command ⟨some 0, false⟩ (fun _ => parseFailEnv)
      = ((sendFuel (fun _ => parseFailEnv) 3 2 ⟨some 0, false⟩ 2 1000).fst,
         (sendFuel (fun _ => parseFailEnv) 3 2 ⟨some 0, false⟩ 2 1000).snd.fst,
         Ev.probe :: Ev.writeLen :: Ev.writeBody :: Ev.readLen :: Ev.readBody
           :: Ev.sleep 500
           :: (sendFuel (fun _ => parseFailEnv) 3 2 ⟨some 0, false⟩ 2 1000).snd.snd) :=
  parse_failure_keeps_connection (fun _ => parseFailEnv) 2 ⟨some 0, false⟩ 1 500 0
    "expected value at line 1 column 1" rfl rfl rfl rfl rfl rfl rfl rfl

/-- C5: when the transport (dial, write, or read) fails on every one of
the three attempts, `send_command` never returns success: it returns a
terminal error that references the configured attempt count 3 and carries
an underlying cause taken from the final attempt's failures. -/
theorem attempts_exhausted_terminal (st : SharedState) (envs : Nat → AttemptEnv)
    (hflag : st.isConnecting = false)
    (hf : ∀ k, 1 ≤ k → k ≤ 3 → transportFails (envs k)) :
    ∃ er, (send_command st envs).fst = .err er
      ∧ er.attemptsRef = some 3
      ∧ ∃ ca, er.cause = some ca ∧ ca ∈ envCauses (envs 3) := by
  obtain ⟨st1, hf1, he1⟩ :=
    sendFuel_advance envs 2 st 1 500 hflag (hf 1 (by norm_num) (by norm_num)) rfl
  obtain ⟨st2, hf2, he2⟩ :=
    sendFuel_advance envs 1 st1 2 1000 hf1 (hf 2 (by norm_num) (by norm_num)) rfl
  obtain ⟨er, he3, hattr, ca, hca, hmem⟩ :=
    sendFuel_final envs 0 st2 2000 hf2 (hf 3 (by norm_num) (by norm_num))
  refine ⟨er, ?_, hattr, ca, hca, hmem⟩
  norm_num at he1 he2 he3
  show (sendFuel envs 3 3 st 1 500).fst = .err er
  rw [he1, he2, he3]

/-- Witness for C5: a peer that resets the length-header write on all
three attempts yields a terminal error naming 3 attempts and the reset. -/
theorem attempts_exhausted_terminal_witness :
    ∃ er, (send_command ⟨some 0, false⟩ (fun _ => resetEnv)).fst = .err er
      ∧ er.attemptsRef = some 3
      ∧ ∃ ca, er.cause = some ca ∧ ca ∈ envCauses resetEnv :=
  attempts_exhausted_terminal ⟨some 0, false⟩ (fun _ => resetEnv) rfl
    (fun _ _ _ => Or.inl rfl)

/-- C6: within one `send_command` call (max_attempts = 3) the backoff
sleeps follow the plain exponential schedule started fresh at 500 ms: the
observed sleep list is `[]`, `[500]` or `[500, 1000]` — the sleep before
retry attempt n+1 is 500·2^(n-1) ms, and no sleep follows the final
attempt.  The statement quantifies over every starting state and every
environment, so the counter restarts at 500 on every call. -/
theorem backoff_schedule (st : SharedState) (envs : Nat → AttemptEnv) :
    sleeps (send_command st envs).snd.snd = []
    ∨ sleeps (send_command st envs).snd.snd = [500]
    ∨ sleeps (send_command st envs).snd.snd = [500, 1000] := by
  have h := sendFuel_sleeps_three envs st 500
  norm_num at h
  exact h

/-- C1: the claim — that the slot access after a successful
`ensure_connected` (the `unwrap` at line 110) can never fail, for every
interleaving of concurrent `send_command` callers — is false on the code;
this theorem exhibits the failing interleaving.  Caller A passes
`ensure_connected` on the live connection and releases the lock; caller B
then passes `ensure_connected`, enters the locked round trip, has its
length-header write fail, clears the slot (line 116) and releases the
lock for its retry; caller A now re-acquires the lock at line 109 and
`connection_guard.as_mut().unwrap()` panics on the emptied slot, so A
ends neither with a response nor with an error value. -/
theorem unwrap_panics_under_race :
    ((runSys (fun _ => cleanEnv) (fun _ => resetEnv)
        [false, true, true, false] raceStart).taskA).phase
      = .halted .panicked := rfl
